import Mathlib

/-!
# Verification of the E-commerce Shopping Assistant backend

Shallow embedding of the backend of the shopping-assistant repository
(`backend/app/services/vector_store.py`, `backend/app/services/fakestore.py`,
`backend/app/services/database.py`, `backend/app/tools/shopping_tools.py`)
together with proofs about the embedded operations.

Modelling conventions:
* Python `float` prices, ratings and similarity scores are modelled as `Rat`
  (the claims under study are order/arithmetic-structural, not about IEEE
  rounding of individual operations).
* Python `Optional[str]` arguments are `Option String`; Python truthiness of
  a string option (`if s:`) is the `truthy` predicate below (`None` and the
  empty string are falsy).
* Fallible Python code (raised exceptions) is modelled with `Except String`.
* Database tables are lists of rows; a SQL `DELETE ... WHERE pred` removes
  every matching row, and `scalar_one_or_none` is modelled by matching on
  the list of rows satisfying the filter (erroring on more than one match,
  exactly as SQLAlchemy does).
-/

namespace ShopAssist

/-- Python truthiness of an `Optional[str]`: `None` and `""` are falsy. -/
def truthy : Option String → Bool
  | none => false
  | some s => s ≠ ""

/-- ASCII lowercasing of one character (`A`–`Z` shift to `a`–`z`). -/
def lowerChar (c : Char) : Char :=
  if 65 ≤ c.toNat ∧ c.toNat ≤ 90 then Char.ofNat (c.toNat + 32) else c

/-- Python `str.lower()`; the catalog and the tool arguments are ASCII, on
which `str.lower()` is exactly per-character ASCII lowercasing. -/
def pyLower (s : String) : String :=
  ⟨s.data.map lowerChar⟩

/-! ## Data model (`backend/app/models/product.py`) -/

/-- `Rating` pydantic model: `rate: float`, `count: int`. -/
structure Rating where
  rate : Rat
  count : Nat
deriving Repr, DecidableEq

/-- `Product` pydantic model. -/
structure Product where
  id : Int
  title : String
  price : Rat
  description : String
  category : String
  image : String
  rating : Rating
deriving Repr, DecidableEq

/-! ## Vector store (`backend/app/services/vector_store.py`)

The FAISS index and the OpenAI embedding provider are external capabilities.
`ProductVectorStore.search` embeds the query, asks FAISS for the full ranked
candidate list `zip(scores[0], indices[0])`, and then runs a pure filtering
loop over that list.  We embed the state as the pair
(`_index is not None`, `_products`), and the filtering loop over an arbitrary
candidate list of (score, index) pairs — for a real FAISS `IndexFlatIP` that
list is sorted by descending score and every index is in range (or `-1`). -/

/-- Vector-store state: whether `self._index` is set, and `self._products`. -/
structure VectorStoreState where
  indexBuilt : Bool
  products : List Product
deriving Repr, DecidableEq

/-- `ProductVectorStore.is_ready`: `self._index is not None and len(self._products) > 0`. -/
def is_ready (s : VectorStoreState) : Bool :=
  s.indexBuilt && decide (0 < s.products.length)

/-- The category drop test of the loop body:
`if category and product.category.lower() != category.lower(): continue`. -/
def categoryDrop (category : Option String) (p : Product) : Bool :=
  truthy category && pyLower p.category ≠ pyLower (category.getD "")

/-- The price drop test of the loop body:
`if max_price is not None and product.price > max_price: continue`. -/
def priceDrop (maxPrice : Option Rat) (p : Product) : Bool :=
  match maxPrice with
  | none => false
  | some m => decide (m < p.price)

/-- One keep/drop decision of the filtering loop in `ProductVectorStore.search`:
drops the candidate when `idx < 0 or score < min_score`, when the category or
price test fires, and (unreachably for FAISS output over the same list, which
only yields indices `< len(products)` or `-1`) when the index is out of range.
Returns the score together with the kept product. -/
def keepCandidate (ps : List Product) (minScore : Rat) (category : Option String)
    (maxPrice : Option Rat) (c : Rat × Int) : Option (Rat × Product) :=
  if c.2 < 0 ∨ c.1 < minScore then none
  else
    match ps.get? c.2.toNat with
    | none => none
    | some p =>
      if categoryDrop category p then none
      else if priceDrop maxPrice p then none
      else some (c.1, p)

/-- The `for score, idx in zip(scores[0], indices[0]):` loop of
`ProductVectorStore.search`, with `topK` the remaining budget
(`top_k - len(results)`); the Python loop appends and then breaks as soon as
`len(results) >= top_k`, which with budget `b` means: stop right after an
append made with `b ≤ 1`. -/
def searchLoop (ps : List Product) (minScore : Rat) (category : Option String)
    (maxPrice : Option Rat) (topK : Nat) : List (Rat × Int) → List Product
  | [] => []
  | c :: rest =>
    match keepCandidate ps minScore category maxPrice c with
    | none => searchLoop ps minScore category maxPrice topK rest
    | some sp =>
      if topK ≤ 1 then [sp.2]
      else sp.2 :: searchLoop ps minScore category maxPrice (topK - 1) rest

/-- `ProductVectorStore.search`: raises `RuntimeError("Vector store not
initialized")` unless `is_ready`, then runs the filtering loop over the FAISS
candidate list (modelled as the explicit argument `cands`). -/
def storeSearch (s : VectorStoreState) (cands : List (Rat × Int)) (topK : Nat)
    (category : Option String) (maxPrice : Option Rat) (minScore : Rat) :
    Except String (List Product) :=
  if is_ready s then
    .ok (searchLoop s.products minScore category maxPrice topK cands)
  else
    .error "Vector store not initialized"

/-- `ProductVectorStore.get_product_by_id`: linear scan of the cached products. -/
def get_product_by_id (ps : List Product) (product_id : Int) : Option Product :=
  ps.find? (fun p => p.id == product_id)

/-! ## Keyword fallback (`backend/app/services/fakestore.py`)

`FakeStoreClient.search_products` fetches the whole catalog and filters it
client-side: category filter (skipped when `category` is falsy), then the
word filter (skipped when `query` is falsy or no query word is longer than
2 characters), then the price filter. -/

/-- Python `w in s` on the character lists of two strings. -/
def hasSub (w : List Char) : List Char → Bool
  | [] => w.isEmpty
  | c :: rest => w.isPrefixOf (c :: rest) || hasSub w rest

/-- Python substring test `w in s`. -/
def strContains (s w : String) : Bool :=
  hasSub w.toList s.toList

/-- Python `str.split()` with no separator: maximal runs of non-whitespace
characters, with no empty pieces.  `acc` carries the (reversed) run in
progress. -/
def splitWs : List Char → List Char → List String
  | [], acc => if acc.isEmpty then [] else [String.mk acc.reverse]
  | c :: rest, acc =>
    if c.isWhitespace then
      (if acc.isEmpty then [] else [String.mk acc.reverse]) ++ splitWs rest []
    else splitWs rest (c :: acc)

/-- Python `s.split()`. -/
def pySplit (s : String) : List String :=
  splitWs s.data []

/-- `[w for w in query.lower().split() if len(w) > 2]`. -/
def queryWords (query : String) : List String :=
  (pySplit (pyLower query)).filter (fun w => decide (2 < w.length))

/-- The per-product word test of the fallback:
`any(w in p.title.lower() or w in p.description.lower() for w in words)`. -/
def wordHit (words : List String) (p : Product) : Bool :=
  words.any (fun w => strContains (pyLower p.title) w || strContains (pyLower p.description) w)

/-- `FakeStoreClient.search_products` after the catalog fetch: the three
sequential client-side filters, each guarded exactly as in the source. -/
def search_products_fb (catalog : List Product) (query category : Option String)
    (maxPrice : Option Rat) : List Product :=
  let ps1 :=
    if truthy category then
      catalog.filter (fun p => pyLower p.category == pyLower (category.getD ""))
    else catalog
  let ps2 :=
    if truthy query then
      let words := queryWords (query.getD "")
      if words.isEmpty then ps1 else ps1.filter (wordHit words)
    else ps1
  match maxPrice with
  | none => ps2
  | some m => ps2.filter (fun p => decide (p.price ≤ m))

/-! ## Cart persistence (`backend/app/services/database.py`)

`cart_items` rows (the autoincrement primary key and timestamp play no role
in the claims and are omitted); the table is a list of rows. -/

/-- One `cart_items` row. -/
structure CartItemRow where
  conversation_id : Option String
  user_id : Option String
  product_id : Int
  quantity : Int
deriving Repr, DecidableEq

/-- `_cart_owner_filter`: `if user_id: CartItemRow.user_id == user_id` else
`CartItemRow.conversation_id == conversation_id` (SQL `= NULL` never holds,
but SQLAlchemy renders a literal `None` comparison as `IS NULL`, which the
`Option` equality below reproduces). -/
def cartOwnerFilterRow (user_id conversation_id : Option String)
    (r : CartItemRow) : Bool :=
  if truthy user_id then r.user_id == user_id
  else r.conversation_id == conversation_id

/-- The row-matching predicate of `add_cart_item` / `remove_cart_item`:
owner filter plus `CartItemRow.product_id == product_id`. -/
def cartRowPred (user_id conversation_id : Option String) (product_id : Int)
    (r : CartItemRow) : Bool :=
  cartOwnerFilterRow user_id conversation_id r && r.product_id == product_id

/-- `add_cart_item`: select the owner+product row via `scalar_one_or_none`
(no row: insert a fresh one, with `conversation_id` nulled out when a user id
is set; one row: increment its quantity in place; several rows:
`MultipleResultsFound`).  Returns the new table and the returned
`row.quantity`. -/
def add_cart_item (db : List CartItemRow) (conversation_id : Option String)
    (product_id : Int) (quantity : Int) (user_id : Option String) :
    Except String (List CartItemRow × Int) :=
  match db.filter (cartRowPred user_id conversation_id product_id) with
  | [] =>
    let row : CartItemRow :=
      { user_id := user_id
        conversation_id := if truthy user_id then none else conversation_id
        product_id := product_id
        quantity := quantity }
    .ok (db ++ [row], quantity)
  | [r] =>
    .ok
      (db.map (fun x =>
        if cartRowPred user_id conversation_id product_id x then
          { x with quantity := x.quantity + quantity }
        else x),
       r.quantity + quantity)
  | _ => .error "MultipleResultsFound"

/-- `remove_cart_item`: SQL `DELETE` of every owner+product row; returns the
new table and `rowcount > 0`. -/
def remove_cart_item (db : List CartItemRow) (conversation_id : Option String)
    (product_id : Int) (user_id : Option String) : List CartItemRow × Bool :=
  (db.filter (fun r => !(cartRowPred user_id conversation_id product_id r)),
   db.any (cartRowPred user_id conversation_id product_id))

/-- `get_cart_total_items`: `SUM(quantity)` over the owner's rows (`COALESCE`
to 0 on an empty cart). -/
def get_cart_total_items (db : List CartItemRow) (user_id conversation_id : Option String) :
    Int :=
  ((db.filter (cartOwnerFilterRow user_id conversation_id)).map CartItemRow.quantity).sum

/-- `get_cart_items` as consumed by `_db_get_cart`: the owner's rows as
`(product_id, quantity)` pairs. -/
def db_get_cart (db : List CartItemRow) (user_id conversation_id : Option String) :
    List (Int × Int) :=
  (db.filter (cartOwnerFilterRow user_id conversation_id)).map
    (fun r => (r.product_id, r.quantity))

/-! ## Tool layer (`backend/app/tools/shopping_tools.py`)

The tools read the per-turn `_ToolContext` (conversation id, optional user
id, last-search id set).  We model each tool as a pure function of the
catalog (the ready vector store's cached products — the claims under study
concern the ready-store path), the cart table, and the context, returning
the structured payload together with the new table / context.  The Python
`try/except` wrapper turns any raised exception into an `{"error": ...}`
payload; in the embedding every failure is already an explicit `error`
payload, so nothing escapes the tool boundary. -/

/-- `_cart_kwargs`: `(user_id, conversation_id)` keyword pair handed to the
DB helpers — `{"user_id": uid}` when the context user id is truthy, else
`{"conversation_id": cid}`. -/
def cart_kwargs (uid : Option String) (cid : String) : Option String × Option String :=
  if truthy uid then (uid, none) else (none, some cid)

/-- Python `round(x, 2)` (modelled as round-half-up on `Rat`; Python uses
banker's rounding on ties, but the claims compare the code's total with the
spec's formula under the same rounding, so tie behaviour is immaterial). -/
def round2 (x : Rat) : Rat :=
  (⌊x * 100 + 1 / 2⌋ : Int) / 100

/-- One line of the `get_cart` payload. -/
structure CartLine where
  product_id : Int
  title : String
  price : Rat
  quantity : Int
  subtotal : Rat
deriving Repr, DecidableEq

/-- The `get_cart` payload: the empty-cart early return (items `[]`,
total `0.0`, no `item_count` field) or the assembled view. -/
inductive GetCartResult where
  | empty (message : String)
  | view (items : List CartLine) (total : Rat) (item_count : Nat)
deriving Repr, DecidableEq

/-- The `for pid, qty in cart_rows:` loop of `get_cart`: skip rows whose
product no longer resolves, otherwise accumulate the line and its subtotal
(the displayed subtotal is rounded; the running total is not). -/
def getCartLoop (catalog : List Product) : List (Int × Int) → List CartLine × Rat
  | [] => ([], 0)
  | (pid, qty) :: rest =>
    match get_product_by_id catalog pid with
    | none => getCartLoop catalog rest
    | some p =>
      let acc := getCartLoop catalog rest
      ({ product_id := pid, title := p.title, price := p.price, quantity := qty,
         subtotal := round2 (p.price * qty) } :: acc.1,
       p.price * qty + acc.2)

/-- The `get_cart` tool on the ready-store path, given the owner's cart rows
as `(product_id, quantity)` pairs. -/
def get_cart_view (catalog : List Product) (rows : List (Int × Int)) : GetCartResult :=
  if rows.isEmpty then .empty "Your cart is empty."
  else
    let acc := getCartLoop catalog rows
    .view acc.1 (round2 acc.2) acc.1.length

/-- The `add_to_cart` payload. -/
inductive AddToCartResult where
  | ok (message : String) (product_id : Int) (product_title : String)
      (quantity_in_cart : Int) (total_items : Int)
  | error (msg : String)
deriving Repr, DecidableEq

/-- The `add_to_cart` tool on the ready-store path: quantity guard, product
lookup, then `_db_add_to_cart` (upsert + cart-wide quantity sum inside one
transaction, rolled back if the upsert raises). -/
def add_to_cart_tool (catalog : List Product) (db : List CartItemRow)
    (uid : Option String) (cid : String) (product_id : Int) (quantity : Int) :
    AddToCartResult × List CartItemRow :=
  if quantity < 1 then (.error "Quantity must be at least 1.", db)
  else
    match get_product_by_id catalog product_id with
    | none => (.error ("Product #" ++ toString product_id ++ " not found."), db)
    | some p =>
      let kw := cart_kwargs uid cid
      match add_cart_item db kw.2 product_id quantity kw.1 with
      | .error e => (.error ("Failed to add to cart: " ++ e), db)
      | .ok (db2, qty) =>
        (.ok ("Added " ++ toString quantity ++ " x " ++ p.title ++ " to cart")
          product_id p.title qty (get_cart_total_items db2 kw.1 kw.2),
         db2)

/-- The `remove_from_cart` payload. -/
inductive RemoveResult where
  | removedEmpty (message : String)
  | removedSome (message : String) (remaining_items : Nat)
  | error (msg : String)
deriving Repr, DecidableEq

/-- The `remove_from_cart` tool on the ready-store path: delete first (its
own committed transaction), then resolve the product for the message — a
product id that no longer resolves yields a not-found error payload even
though the rows are already gone — then count the remaining owner rows. -/
def remove_from_cart_tool (catalog : List Product) (db : List CartItemRow)
    (uid : Option String) (cid : String) (product_id : Int) :
    RemoveResult × List CartItemRow :=
  let kw := cart_kwargs uid cid
  let del := remove_cart_item db kw.2 product_id kw.1
  if !del.2 then
    (.error ("Product #" ++ toString product_id ++ " is not in your cart."), db)
  else
    match get_product_by_id catalog product_id with
    | none => (.error ("Product #" ++ toString product_id ++ " not found."), del.1)
    | some p =>
      let remaining := db_get_cart del.1 kw.1 kw.2
      if remaining.isEmpty then
        (.removedEmpty ("Removed " ++ p.title ++ ". Cart is now empty."), del.1)
      else
        (.removedSome ("Removed " ++ p.title ++ " from cart") remaining.length, del.1)

/-- Abbreviated product record built by `search_products`. -/
structure ProductSummary where
  id : Int
  title : String
  price : Rat
  category : String
  image : String
  rating : String
deriving Repr, DecidableEq

/-- The abbreviation `search_products` applies to each returned product
(the rating is the formatted string `f"{rate} ({count} reviews)"`). -/
def summarize (p : Product) : ProductSummary :=
  { id := p.id, title := p.title, price := p.price, category := p.category,
    image := p.image,
    rating := toString p.rating.rate ++ " (" ++ toString p.rating.count ++ " reviews)" }

/-- The `search_products` payload: the no-results message, the success
payload, or the `except` branch's error payload. -/
inductive SearchToolResult where
  | noResults (message suggestion : String)
  | ok (count : Nat) (products : List ProductSummary)
  | failure (error : String)
deriving Repr, DecidableEq

/-- The tail of the `search_products` tool, after retrieval produced the
list `retrieved` (semantic search, browse, or keyword fallback): cap at 10,
abbreviate, and either return the no-results payload and clear
`_context.last_search_ids`, or return `{count, products}` and record the
returned ids as the new last-search id set. -/
def search_products_tool (retrieved : List Product) : SearchToolResult × Finset Int :=
  let result := (retrieved.take 10).map summarize
  if result.isEmpty then
    (.noResults "No products found matching your criteria."
       "Try browsing by category or broadening your search.", ∅)
  else
    (.ok result.length result, (result.map ProductSummary.id).toFinset)

/-! ## Concrete sample data (used by witnesses and counterexamples) -/

/-- A concrete catalog product. -/
def pEx : Product :=
  { id := 1, title := "Fjallraven Backpack", price := mkRat 10995 100,
    description := "Perfect pack for everyday use and walks in the forest",
    category := "electronics", image := "img1",
    rating := { rate := mkRat 39 10, count := 120 } }

/-- A second concrete catalog product. -/
def pEx2 : Product :=
  { id := 9, title := "WD 2TB Elements Portable External Hard Drive", price := 64,
    description := "USB 3.0 compatible storage", category := "electronics",
    image := "img9", rating := { rate := mkRat 33 10, count := 203 } }

/-- A ready two-product vector store. -/
def vsEx : VectorStoreState := { indexBuilt := true, products := [pEx, pEx2] }

/-- A FAISS-style candidate list for `vsEx`: descending scores, in-range indices. -/
def candsEx : List (Rat × Int) := [(mkRat 9 10, 0), (mkRat 1 2, 1)]

/-! ## Properties of the vector-store search -/

/-- Whatever the filtering loop keeps has the candidate's score, clears the
`min_score` threshold, matches a truthy category filter case-insensitively,
and respects the price cap. -/
theorem keepCandidate_some_props {ps : List Product} {minScore : Rat}
    {category : Option String} {maxPrice : Option Rat} {c : Rat × Int}
    {sp : Rat × Product}
    (h : keepCandidate ps minScore category maxPrice c = some sp) :
    sp.1 = c.1 ∧ minScore ≤ sp.1
    ∧ (∀ cat, category = some cat → cat ≠ "" → pyLower sp.2.category = pyLower cat)
    ∧ (∀ m, maxPrice = some m → sp.2.price ≤ m) := by
  unfold keepCandidate at h
  split at h
  · exact absurd h (by simp)
  · rename_i h0
    push_neg at h0
    cases hget : ps.get? c.2.toNat with
    | none => rw [hget] at h; dsimp only at h; exact absurd h (by simp)
    | some p =>
      rw [hget] at h
      dsimp only at h
      by_cases hcat : categoryDrop category p = true
      · rw [if_pos hcat] at h; exact absurd h (by simp)
      · rw [if_neg hcat] at h
        by_cases hpr : priceDrop maxPrice p = true
        · rw [if_pos hpr] at h; exact absurd h (by simp)
        · rw [if_neg hpr] at h
          injection h with h
          subst h
          refine ⟨rfl, h0.2, ?_, ?_⟩
          · intro cat hc hne
            subst hc
            simp only [categoryDrop, truthy, Option.getD_some, Bool.and_eq_true,
              decide_eq_true_eq, not_and] at hcat
            exact not_not.mp (hcat hne)
          · intro m hm
            subst hm
            simp only [priceDrop, decide_eq_true_eq] at hpr
            exact le_of_not_lt hpr

/-- With a positive remaining budget, the Python append-then-break loop is
filter-then-take: the `top_k` cap applies only to surviving entries. -/
theorem searchLoop_eq_take (ps : List Product) (minScore : Rat)
    (category : Option String) (maxPrice : Option Rat) :
    ∀ (cs : List (Rat × Int)) (topK : Nat), 1 ≤ topK →
      searchLoop ps minScore category maxPrice topK cs
        = ((cs.filterMap (keepCandidate ps minScore category maxPrice)).take topK).map
            Prod.snd := by
  intro cs
  induction cs with
  | nil => intro topK _; simp [searchLoop]
  | cons c rest ih =>
    intro topK hk
    cases hkc : keepCandidate ps minScore category maxPrice c with
    | none =>
      simpa [searchLoop, hkc, List.filterMap_cons] using ih topK hk
    | some sp =>
      match topK, hk with
      | 1, _ =>
        simp [searchLoop, hkc, List.filterMap_cons]
      | (n + 2), _ =>
        have h2 : 1 ≤ n + 1 := Nat.succ_le_succ (Nat.zero_le n)
        simp only [searchLoop, hkc, List.filterMap_cons]
        rw [if_neg (by omega)]
        simp [List.take_succ_cons, ih (n + 1) h2]

/-- `filterMap` sends a pairwise-related list to a pairwise-related list when
the function transports the relation. -/
theorem pairwise_filterMap_of_pairwise {α β : Type _} (f : α → Option β)
    (R : α → α → Prop) (S : β → β → Prop)
    (hf : ∀ a b x y, f a = some x → f b = some y → R a b → S x y) :
    ∀ l : List α, l.Pairwise R → (l.filterMap f).Pairwise S := by
  intro l hl
  induction hl with
  | nil => simp
  | @cons a t ha _ ih =>
    cases hfa : f a with
    | none => simpa [List.filterMap_cons, hfa] using ih
    | some x =>
      rw [List.filterMap_cons, hfa]
      refine List.Pairwise.cons ?_ ih
      intro y hy
      obtain ⟨b, hb, hfb⟩ := List.mem_filterMap.mp hy
      exact hf a b x y hfa hfb (ha b hb)

/-- C1 (amended): for every ready vector store, FAISS candidate list (sorted
by descending score, as `IndexFlatIP` guarantees), `top_k ≥ 1`, category,
max price and threshold, `ProductVectorStore.search` returns exactly the
first `top_k` survivors of the filtering pass: each has score ≥ `min_score`,
matches a given non-empty category case-insensitively, costs at most any
given max price; the list has at most `top_k` entries, in descending-score
order, the cap being applied only to entries that survived the filters. -/
theorem semantic_search_spec (s : VectorStoreState) (cands : List (Rat × Int))
    (topK : Nat) (category : Option String) (maxPrice : Option Rat) (minScore : Rat)
    (hready : is_ready s = true) (hk : 1 ≤ topK)
    (hsorted : cands.Pairwise (fun a b => b.1 ≤ a.1)) :
    ∃ res : List (Rat × Product),
      storeSearch s cands topK category maxPrice minScore = .ok (res.map Prod.snd)
      ∧ res.length ≤ topK
      ∧ (∀ sp ∈ res, minScore ≤ sp.1
          ∧ (∀ cat, category = some cat → cat ≠ "" → pyLower sp.2.category = pyLower cat)
          ∧ (∀ m, maxPrice = some m → sp.2.price ≤ m))
      ∧ res.Pairwise (fun a b => b.1 ≤ a.1)
      ∧ res = (cands.filterMap (keepCandidate s.products minScore category maxPrice)).take
          topK := by
  refine ⟨(cands.filterMap (keepCandidate s.products minScore category maxPrice)).take topK,
    ?_, ?_, ?_, ?_, rfl⟩
  · rw [storeSearch, if_pos hready,
      searchLoop_eq_take s.products minScore category maxPrice cands topK hk]
  · exact (List.length_take _ _).le.trans (min_le_left _ _)
  · intro sp hsp
    have hmem := List.mem_of_mem_take hsp
    obtain ⟨c, _, hc⟩ := List.mem_filterMap.mp hmem
    obtain ⟨_, h2, h3, h4⟩ := keepCandidate_some_props hc
    exact ⟨h2, h3, h4⟩
  · have hfm : (cands.filterMap
        (keepCandidate s.products minScore category maxPrice)).Pairwise
        (fun a b : Rat × Product => b.1 ≤ a.1) := by
      refine pairwise_filterMap_of_pairwise _ _ _ ?_ cands hsorted
      intro a b x y hx hy hab
      have h1 := (keepCandidate_some_props hx).1
      have h2 := (keepCandidate_some_props hy).1
      rw [h1, h2]
      exact hab
    exact hfm.sublist (List.take_sublist _ _)

/-- C1 witness: on a concrete ready store the amended search contract holds
and yields exactly the best surviving product. -/
theorem semantic_search_spec_witness :
    is_ready vsEx = true ∧ (1:Nat) ≤ 1
    ∧ storeSearch vsEx candsEx 1 (some "ELECTRONICS") (some 200) (mkRat 1 10) = .ok [pEx] := by
  have h := semantic_search_spec vsEx candsEx 1 (some "ELECTRONICS") (some 200) (mkRat 1 10)
    (by decide) (le_refl 1) (by decide)
  obtain ⟨res, h1, -, -, -, h5⟩ := h
  refine ⟨by decide, le_refl 1, ?_⟩
  rw [h1, h5]
  exact congrArg Except.ok (by decide)

/-- C1 counterexample: the claim as stated fails for `top_k = 0` (the loop
appends before testing the cap, so one product is returned, not zero) and
for the given-but-empty category `""` (Python truthiness skips the category
filter, so a product of a different category is returned). -/
theorem semantic_search_cex :
    (searchLoop [pEx] (mkRat 1 10) none none 0 [(mkRat 1 2, 0)]).length = 1
    ∧ searchLoop [pEx] (mkRat 1 10) (some "") none 10 [(mkRat 1 2, 0)] = [pEx]
    ∧ pEx.category ≠ "" := by decide

/-- C2 (amended): an index that has been built but holds zero entries is not
ready, and `search` on it fails with the not-initialized error instead of
returning an empty list — the empty-list return of the claim never happens
because the readiness guard fires first. -/
theorem empty_index_search_raises (s : VectorStoreState) (cands : List (Rat × Int))
    (topK : Nat) (category : Option String) (maxPrice : Option Rat) (minScore : Rat)
    (_hbuilt : s.indexBuilt = true) (hempty : s.products = []) :
    is_ready s = false
    ∧ storeSearch s cands topK category maxPrice minScore
        = .error "Vector store not initialized" := by
  have hnr : is_ready s = false := by
    simp [is_ready, hempty]
  exact ⟨hnr, by rw [storeSearch, if_neg (by simp [hnr])]⟩

/-- C2 witness: the concrete built-but-empty store is not ready and `search`
on it errors. -/
theorem empty_index_search_raises_witness :
    VectorStoreState.indexBuilt ⟨true, []⟩ = true
    ∧ is_ready ⟨true, []⟩ = false
    ∧ storeSearch ⟨true, []⟩ [] 10 none none (mkRat 1 10)
        = .error "Vector store not initialized" := by
  have h := empty_index_search_raises ⟨true, []⟩ [] 10 none none (mkRat 1 10) rfl rfl
  exact ⟨rfl, h.1, h.2⟩

/-- C2 counterexample: on the built-but-empty store, `search` is an error,
not the empty-list success the claim states. -/
theorem empty_index_search_cex :
    storeSearch ⟨true, []⟩ [] 10 none none (mkRat 1 10)
      = .error "Vector store not initialized"
    ∧ storeSearch ⟨true, []⟩ [] 10 none none (mkRat 1 10) ≠ .ok [] :=
  ⟨rfl, fun h => Except.noConfusion h⟩

/-- C3 (amended): when the query contains at least one word longer than two
characters and any given category is non-empty, the keyword fallback
`FakeStoreClient.search_products` returns exactly the products, in catalog
order, for which some query word of length > 2 appears case-insensitively
in the title or description, and which pass the category (case-insensitive
equality) and price (≤ max_price) predicates. -/
theorem keyword_fallback_exact (catalog : List Product) (q : String)
    (category : Option String) (maxPrice : Option Rat)
    (hw : queryWords q ≠ [])
    (hcat : ∀ c, category = some c → c ≠ "") :
    search_products_fb catalog (some q) category maxPrice
      = catalog.filter (fun p =>
          wordHit (queryWords q) p
          && (match category with
              | none => true
              | some c => pyLower p.category == pyLower c)
          && (match maxPrice with
              | none => true
              | some m => decide (p.price ≤ m))) := by
  have hq : truthy (some q) = true := by
    simp only [truthy, ne_eq, decide_eq_true_eq]
    intro hq0
    exact hw (by rw [hq0]; rfl)
  have hwe : (queryWords q).isEmpty = false := by
    cases hqw : queryWords q with
    | nil => exact absurd hqw hw
    | cons a t => rfl
  unfold search_products_fb
  rw [hq]
  simp only [Option.getD_some, hwe, if_true, if_false, Bool.false_eq_true]
  cases category with
  | none =>
    simp only [truthy, if_false, Bool.false_eq_true]
    cases maxPrice with
    | none => exact List.filter_congr (fun p _ => by simp)
    | some m =>
      simp only [List.filter_filter]
      exact List.filter_congr (fun p _ => by simp [Bool.and_comm])
  | some c =>
    have hc : (c ≠ "" : Bool) = true := by
      simpa using hcat c rfl
    simp only [truthy, hc, if_true]
    cases maxPrice with
    | none =>
      rw [List.filter_filter]
      exact List.filter_congr (fun p _ => by simp [Bool.and_comm])
    | some m =>
      simp only [List.filter_filter]
      exact List.filter_congr
        (fun p _ => by simp [Bool.and_comm, Bool.and_assoc, Bool.and_left_comm])

/-- C3 witness: on a concrete catalog a two-word query with a price cap
returns exactly the matching product. -/
theorem keyword_fallback_exact_witness :
    queryWords "warm backpack" ≠ []
    ∧ search_products_fb [pEx, pEx2] (some "warm backpack") none (some 200) = [pEx] := by
  have h := keyword_fallback_exact [pEx, pEx2] "warm backpack" none (some 200)
    (by decide) (fun c hc => nomatch hc)
  refine ⟨by decide, ?_⟩
  rw [h]
  decide

/-- C3 counterexample: the claim as stated fails when no query word is longer
than two characters (the word filter is skipped, so a product with no word
hit is returned instead of nothing) and when the given category is the empty
string (truthiness skips the category filter, so a product of a different
category is returned). -/
theorem keyword_fallback_cex :
    search_products_fb [pEx] (some "ab") none none = [pEx]
    ∧ wordHit (queryWords "ab") pEx = false
    ∧ search_products_fb [pEx] (some "Backpack") (some "") none = [pEx]
    ∧ pEx.category ≠ "" := by decide

/-! ## Properties of the cart upsert -/

/-- Updating only rows that match a predicate no row satisfies is a no-op. -/
theorem map_update_no_match {α : Type _} {l : List α} {pred : α → Bool} {f : α → α}
    (h : ∀ x ∈ l, pred x = false) :
    l.map (fun x => if pred x then f x else x) = l := by
  induction l with
  | nil => rfl
  | cons a t ih =>
    simp only [List.map_cons, h a (List.mem_cons_self a t), Bool.false_eq_true, if_false,
      List.cons.injEq, true_and]
    exact ih (fun x hx => h x (List.mem_cons_of_mem a hx))

/-- A fresh (owner, product) insert: when no matching row exists,
`add_cart_item` appends a single row carrying the resolved owner key
(`conversation_id` nulled out when a user id is set). -/
theorem add_cart_item_fresh {db : List CartItemRow} {cid : Option String}
    {pid q : Int} {uid : Option String}
    (h : db.filter (cartRowPred uid cid pid) = []) :
    add_cart_item db cid pid q uid
      = .ok (db ++ [⟨if truthy uid then none else cid, uid, pid, q⟩], q) := by
  unfold add_cart_item
  rw [h]

/-- An existing (owner, product) row: `add_cart_item` increments its quantity
in place and returns the incremented quantity. -/
theorem add_cart_item_existing {db : List CartItemRow} {cid : Option String}
    {pid q : Int} {uid : Option String} {r : CartItemRow}
    (h : db.filter (cartRowPred uid cid pid) = [r]) :
    add_cart_item db cid pid q uid
      = .ok (db.map (fun x => if cartRowPred uid cid pid x then
          { x with quantity := x.quantity + q } else x), r.quantity + q) := by
  unfold add_cart_item
  rw [h]

/-- The row inserted by a fresh `add_cart_item` matches the owner+product
predicate it was inserted under. -/
theorem fresh_row_matches (uid cid : Option String) (pid q : Int) :
    cartRowPred uid cid pid ⟨if truthy uid then none else cid, uid, pid, q⟩ = true := by
  cases huid : truthy uid <;>
    simp [cartRowPred, cartOwnerFilterRow, huid]

/-- Quantity updates do not change which rows the owner+product predicate
matches. -/
theorem cartRowPred_set_quantity (uid cid : Option String) (pid : Int)
    (r : CartItemRow) (q : Int) :
    cartRowPred uid cid pid { r with quantity := q } = cartRowPred uid cid pid r := by
  simp [cartRowPred, cartOwnerFilterRow]

/-- C4: for every owner key pair and product id, two `add_cart_item` calls
with quantities q1 and q2 against a table with no matching row leave exactly
one row for that (owner, product) pair, with line quantity q1 + q2, and grow
the table by exactly one row (not two). -/
theorem add_to_cart_twice_upsert (db : List CartItemRow) (cid uid : Option String)
    (pid q1 q2 : Int)
    (h : db.filter (cartRowPred uid cid pid) = []) :
    ∃ db1 db2,
      add_cart_item db cid pid q1 uid = .ok (db1, q1)
      ∧ add_cart_item db1 cid pid q2 uid = .ok (db2, q1 + q2)
      ∧ (db2.filter (cartRowPred uid cid pid)).map CartItemRow.quantity = [q1 + q2]
      ∧ db2.length = db.length + 1 := by
  have hno : ∀ x ∈ db, cartRowPred uid cid pid x = false := by
    intro x hx
    by_contra hcontra
    have : x ∈ db.filter (cartRowPred uid cid pid) :=
      List.mem_filter.mpr ⟨hx, by revert hcontra; cases cartRowPred uid cid pid x <;> simp⟩
    rw [h] at this
    exact absurd this (List.not_mem_nil x)
  refine ⟨db ++ [⟨if truthy uid then none else cid, uid, pid, q1⟩],
    db ++ [⟨if truthy uid then none else cid, uid, pid, q1 + q2⟩],
    add_cart_item_fresh h, ?_, ?_, by simp⟩
  · have hfil1 : (db ++ [(⟨if truthy uid then none else cid, uid, pid, q1⟩ : CartItemRow)]).filter
        (cartRowPred uid cid pid) = [⟨if truthy uid then none else cid, uid, pid, q1⟩] := by
      rw [List.filter_append, h, List.nil_append, List.filter_cons,
        fresh_row_matches uid cid pid q1]
      rfl
    rw [add_cart_item_existing hfil1, List.map_append, map_update_no_match hno]
    simp only [List.map_cons, fresh_row_matches uid cid pid q1, if_true, List.map_nil]
  · rw [List.filter_append, h, List.nil_append, List.filter_cons,
      fresh_row_matches uid cid pid (q1 + q2)]
    simp

/-- C4 witness: two adds of the same product (quantities 2 then 3) into an
empty guest cart produce one row with quantity 5. -/
theorem add_to_cart_twice_upsert_witness :
    ([] : List CartItemRow).filter (cartRowPred none (some "c1") 1) = []
    ∧ ∃ db1 db2,
        add_cart_item [] (some "c1") 1 2 none = .ok (db1, 2)
        ∧ add_cart_item db1 (some "c1") 1 3 none = .ok (db2, 2 + 3)
        ∧ (db2.filter (cartRowPred none (some "c1") 1)).map CartItemRow.quantity = [2 + 3]
        ∧ db2.length = ([] : List CartItemRow).length + 1 :=
  ⟨rfl, add_to_cart_twice_upsert [] (some "c1") none 1 2 3 rfl⟩

/-! ## Properties of get_cart and owner resolution -/

/-- The `get_cart` loop accumulates exactly the resolvable rows: the running
total is the sum of price × quantity over rows whose product resolves, and
the emitted lines are those rows in order. -/
theorem getCartLoop_spec (catalog : List Product) :
    ∀ rows : List (Int × Int),
      (getCartLoop catalog rows).2
        = (rows.filterMap (fun rq =>
            (get_product_by_id catalog rq.1).map (fun p => p.price * (rq.2 : Rat)))).sum
      ∧ (getCartLoop catalog rows).1.map CartLine.product_id
          = (rows.filter (fun rq => (get_product_by_id catalog rq.1).isSome)).map
              Prod.fst := by
  intro rows
  induction rows with
  | nil => exact ⟨rfl, rfl⟩
  | cons rq rest ih =>
    obtain ⟨pid, qty⟩ := rq
    obtain ⟨ih1, ih2⟩ := ih
    cases hres : get_product_by_id catalog pid with
    | none =>
      refine ⟨?_, ?_⟩
      · simp [getCartLoop, hres, List.filterMap_cons, ih1]
      · simp [getCartLoop, hres, List.filter_cons, ih2]
    | some p =>
      refine ⟨?_, ?_⟩
      · simp [getCartLoop, hres, List.filterMap_cons, ih1]
      · simp [getCartLoop, hres, List.filter_cons, ih2]

/-- C5: for every catalog and non-empty owner cart-row list, the `get_cart`
payload is a view (not an error) whose total is the sum of price × quantity
over the resolvable rows, rounded to 2 decimals, whose lines are exactly the
rows that still resolve against the catalog, in order (rows that do not
resolve are silently skipped, excluded from both items and total), and whose
item_count is the number of emitted lines. -/
theorem get_cart_total_rounds (catalog : List Product) (rows : List (Int × Int))
    (h : rows ≠ []) :
    ∃ items,
      get_cart_view catalog rows
        = .view items
            (round2 ((rows.filterMap (fun rq =>
              (get_product_by_id catalog rq.1).map (fun p => p.price * (rq.2 : Rat)))).sum))
            items.length
      ∧ items.map CartLine.product_id
          = (rows.filter (fun rq => (get_product_by_id catalog rq.1).isSome)).map
              Prod.fst := by
  obtain ⟨h1, h2⟩ := getCartLoop_spec catalog rows
  have hne : rows.isEmpty = false := by
    cases rows with
    | nil => exact absurd rfl h
    | cons a t => rfl
  refine ⟨(getCartLoop catalog rows).1, ?_, h2⟩
  rw [get_cart_view, hne]
  simp only [Bool.false_eq_true, if_false]
  rw [h1]

/-- C5 witness: a concrete cart holding one resolvable row (quantity 2) and
one stale row; the stale row is skipped and the rounded total covers only
the resolvable line. -/
theorem get_cart_total_rounds_witness :
    ([((1:Int), (2:Int)), (99, 1)] : List (Int × Int)) ≠ []
    ∧ ∃ items,
        get_cart_view [pEx] [(1, 2), (99, 1)]
          = .view items
              (round2 ((([((1:Int), (2:Int)), (99, 1)] : List (Int × Int)).filterMap
                (fun rq => (get_product_by_id [pEx] rq.1).map (fun p => p.price * (rq.2 : Rat)))).sum))
              items.length
        ∧ items.map CartLine.product_id
            = (([((1:Int), (2:Int)), (99, 1)] : List (Int × Int)).filter
                (fun rq => (get_product_by_id [pEx] rq.1).isSome)).map Prod.fst :=
  ⟨by decide, get_cart_total_rounds [pEx] [(1, 2), (99, 1)] (by decide)⟩

/-- C6: with a (normalized, hence non-empty when present) user identifier in
the per-turn context, the owner kwargs select the user key only: the read
filter tests only `user_id` and a freshly inserted row stores no
conversation id; with no user identifier, the filter tests only
`conversation_id` and a fresh row stores the conversation id and no user id. -/
theorem cart_owner_resolution (uid : Option String) (cid : String)
    (hnorm : ∀ u, uid = some u → u ≠ "") :
    (∀ v, uid = some v →
      cart_kwargs uid cid = (some v, none)
      ∧ (∀ r, cartOwnerFilterRow (some v) none r = (r.user_id == some v))
      ∧ (∀ db pid q, db.filter (cartRowPred (some v) none pid) = [] →
          add_cart_item db none pid q (some v)
            = .ok (db ++ [⟨none, some v, pid, q⟩], q)))
    ∧ (uid = none →
      cart_kwargs uid cid = (none, some cid)
      ∧ (∀ r, cartOwnerFilterRow none (some cid) r = (r.conversation_id == some cid))
      ∧ (∀ db pid q, db.filter (cartRowPred none (some cid) pid) = [] →
          add_cart_item db (some cid) pid q none
            = .ok (db ++ [⟨some cid, none, pid, q⟩], q))) := by
  constructor
  · intro v hv
    subst hv
    have hv2 : truthy (some v) = true := by
      simpa [truthy] using hnorm v rfl
    refine ⟨by simp [cart_kwargs, hv2], ?_, ?_⟩
    · intro r
      simp [cartOwnerFilterRow, hv2]
    · intro db pid q hdb
      rw [add_cart_item_fresh hdb]
      simp [hv2]
  · intro hnone
    subst hnone
    refine ⟨rfl, ?_, ?_⟩
    · intro r
      simp [cartOwnerFilterRow, truthy]
    · intro db pid q hdb
      rw [add_cart_item_fresh hdb]
      rfl

/-- C6 witness: the logged-in filter matches on the user id regardless of the
row's conversation id, and the guest filter matches on the conversation id. -/
theorem cart_owner_resolution_witness :
    cartOwnerFilterRow (some "alice") none ⟨some "other-convo", some "alice", 7, 1⟩
      = (some "alice" == some "alice")
    ∧ cartOwnerFilterRow none (some "c1") ⟨some "c1", some "bob", 7, 1⟩
      = (some "c1" == some "c1") := by
  constructor
  · have h := (cart_owner_resolution (some "alice") "c1"
      (fun u hu => by cases hu; decide)).1 "alice" rfl
    exact h.2.1 ⟨some "other-convo", some "alice", 7, 1⟩
  · have h := (cart_owner_resolution none "c1" (fun u hu => nomatch hu)).2 rfl
    exact h.2.1 ⟨some "c1", some "bob", 7, 1⟩

/-! ## Tool-boundary error handling -/

/-- C7: the `add_to_cart` tool converts a quantity below 1 and an unknown
product id into structured error payloads with the cart table unchanged, and
whenever it returns any error payload the table is unchanged — no exception
escapes the tool boundary (the transactional upsert is rolled back on
failure, so even the internal upsert error leaves the table untouched). -/
theorem add_to_cart_tool_guards (catalog : List Product) (db : List CartItemRow)
    (uid : Option String) (cid : String) (pid q : Int) :
    (q < 1 → add_to_cart_tool catalog db uid cid pid q
        = (.error "Quantity must be at least 1.", db))
    ∧ (¬ q < 1 → get_product_by_id catalog pid = none →
        add_to_cart_tool catalog db uid cid pid q
          = (.error ("Product #" ++ toString pid ++ " not found."), db))
    ∧ (∀ e, (add_to_cart_tool catalog db uid cid pid q).1 = .error e →
        (add_to_cart_tool catalog db uid cid pid q).2 = db) := by
  refine ⟨?_, ?_, ?_⟩
  · intro hq
    rw [add_to_cart_tool, if_pos hq]
  · intro hq hres
    rw [add_to_cart_tool, if_neg hq, hres]
  · intro e
    unfold add_to_cart_tool
    by_cases hq : q < 1
    · rw [if_pos hq]
      intro _
      rfl
    · rw [if_neg hq]
      cases hres : get_product_by_id catalog pid with
      | none =>
        intro _
        rfl
      | some p =>
        dsimp only
        cases hadd : add_cart_item db (cart_kwargs uid cid).2 pid q (cart_kwargs uid cid).1 with
        | error e2 =>
          intro _
          rfl
        | ok pr =>
          intro hcon
          exact absurd hcon (by simp)

/-- C7 witness: quantity 0 and an unknown product id both yield error
payloads with the (empty) cart unchanged. -/
theorem add_to_cart_tool_guards_witness :
    ((0:Int) < 1)
    ∧ add_to_cart_tool [pEx] [] none "c1" 1 0 = (.error "Quantity must be at least 1.", [])
    ∧ get_product_by_id [pEx] 999 = none
    ∧ add_to_cart_tool [pEx] [] none "c1" 999 1
        = (.error ("Product #" ++ toString (999:Int) ++ " not found."), []) :=
  ⟨by decide,
   (add_to_cart_tool_guards [pEx] [] none "c1" 1 0).1 (by decide),
   by decide,
   (add_to_cart_tool_guards [pEx] [] none "c1" 999 1).2.1 (by decide) (by decide)⟩

/-- Deleting every row matching a predicate leaves no row matching it. -/
theorem filter_not_any {α : Type _} (l : List α) (p : α → Bool) :
    (l.filter (fun r => !(p r))).any p = false := by
  induction l with
  | nil => rfl
  | cons a t ih => cases ha : p a <;> simp [List.filter_cons, ha, ih]

/-- Branch-complete description of the `remove_from_cart` tool: the NotInCart
guard, then product resolution, then the empty/non-empty remaining split. -/
theorem remove_tool_eq (catalog : List Product) (db : List CartItemRow)
    (uid : Option String) (cid : String) (pid : Int) (u c : Option String)
    (hkw : cart_kwargs uid cid = (u, c)) :
    remove_from_cart_tool catalog db uid cid pid
      = if db.any (cartRowPred u c pid) then
          (match get_product_by_id catalog pid with
           | none => .error ("Product #" ++ toString pid ++ " not found.")
           | some p =>
             if (db_get_cart (db.filter (fun r => !(cartRowPred u c pid r))) u c).isEmpty then
               RemoveResult.removedEmpty ("Removed " ++ p.title ++ ". Cart is now empty.")
             else
               RemoveResult.removedSome ("Removed " ++ p.title ++ " from cart")
                 (db_get_cart (db.filter (fun r => !(cartRowPred u c pid r))) u c).length,
           db.filter (fun r => !(cartRowPred u c pid r)))
        else (.error ("Product #" ++ toString pid ++ " is not in your cart."), db) := by
  cases hany : db.any (cartRowPred u c pid) with
  | false => simp [remove_from_cart_tool, remove_cart_item, hkw, hany]
  | true =>
    cases hres : get_product_by_id catalog pid with
    | none => simp [remove_from_cart_tool, remove_cart_item, hkw, hany, hres]
    | some p =>
      by_cases hemp :
          (db_get_cart (db.filter (fun r => !(cartRowPred u c pid r))) u c).isEmpty = true
      · simp [remove_from_cart_tool, remove_cart_item, hkw, hany, hres, hemp]
      · simp [remove_from_cart_tool, remove_cart_item, hkw, hany, hres, hemp]

/-- C8 (amended): `remove_from_cart` returns the NotInCart error payload with
the table unchanged when the owner has no row for the product; otherwise it
deletes every matching row, and then: when the product id still resolves in
the catalog it reports the remaining owner-row count, with the distinct
cart-now-empty message exactly when that count is zero, but when the product
id no longer resolves it returns a not-found error payload even though the
rows were already deleted. -/
theorem remove_from_cart_behaviour (catalog : List Product) (db : List CartItemRow)
    (uid : Option String) (cid : String) (pid : Int) (u c : Option String)
    (hkw : cart_kwargs uid cid = (u, c)) :
    (db.any (cartRowPred u c pid) = false →
      remove_from_cart_tool catalog db uid cid pid
        = (.error ("Product #" ++ toString pid ++ " is not in your cart."), db))
    ∧ (db.any (cartRowPred u c pid) = true →
        (remove_from_cart_tool catalog db uid cid pid).2
            = db.filter (fun r => !(cartRowPred u c pid r))
        ∧ (db.filter (fun r => !(cartRowPred u c pid r))).any (cartRowPred u c pid) = false
        ∧ (get_product_by_id catalog pid = none →
            (remove_from_cart_tool catalog db uid cid pid).1
              = .error ("Product #" ++ toString pid ++ " not found."))
        ∧ (∀ p, get_product_by_id catalog pid = some p →
            (db_get_cart (db.filter (fun r => !(cartRowPred u c pid r))) u c = [] →
              (remove_from_cart_tool catalog db uid cid pid).1
                = .removedEmpty ("Removed " ++ p.title ++ ". Cart is now empty."))
            ∧ (db_get_cart (db.filter (fun r => !(cartRowPred u c pid r))) u c ≠ [] →
              (remove_from_cart_tool catalog db uid cid pid).1
                = .removedSome ("Removed " ++ p.title ++ " from cart")
                    (db_get_cart (db.filter (fun r => !(cartRowPred u c pid r))) u c).length))) := by
  rw [remove_tool_eq catalog db uid cid pid u c hkw]
  refine ⟨fun hany => by simp [hany], fun hany => ?_⟩
  refine ⟨by simp [hany], filter_not_any _ _, fun hres => by simp [hany, hres],
    fun p hres => ⟨fun hemp => ?_, fun hne => ?_⟩⟩
  · simp [hany, hres, hemp]
  · have hemp2 :
        (db_get_cart (db.filter (fun r => !(cartRowPred u c pid r))) u c).isEmpty = false := by
      cases hgc : db_get_cart (db.filter (fun r => !(cartRowPred u c pid r))) u c with
      | nil => exact absurd hgc hne
      | cons a t => rfl
    simp [hany, hres, hemp2]

/-- C8 witness: removing the only cart row of a resolvable product yields the
distinct cart-now-empty message, with the row deleted. -/
theorem remove_from_cart_behaviour_witness :
    ([(⟨some "c1", none, 1, 2⟩ : CartItemRow)].any (cartRowPred none (some "c1") 1) = true)
    ∧ get_product_by_id [pEx] 1 = some pEx
    ∧ (remove_from_cart_tool [pEx] [⟨some "c1", none, 1, 2⟩] none "c1" 1).1
        = .removedEmpty ("Removed " ++ pEx.title ++ ". Cart is now empty.") := by
  have h := (remove_from_cart_behaviour [pEx] [⟨some "c1", none, 1, 2⟩] none "c1" 1
    none (some "c1") rfl).2 (by decide)
  exact ⟨by decide, by decide, (h.2.2.2 pEx (by decide)).1 (by decide)⟩

/-- C8 counterexample: the cart holds a row for product 5 but the catalog no
longer resolves id 5 — the row is deleted, yet the tool reports a not-found
error payload instead of the remaining item count the claim requires. -/
theorem remove_stale_product_cex :
    remove_from_cart_tool [] [⟨some "c1", none, 5, 1⟩] none "c1" 5
      = (.error ("Product #" ++ toString (5:Int) ++ " not found."), [])
    ∧ ([(⟨some "c1", none, 5, 1⟩ : CartItemRow)].any (cartRowPred none (some "c1") 5)
        = true) := by
  constructor
  · rfl
  · decide

/-- C9: when retrieval yields no products the `search_products` tool returns
the message-plus-suggestion payload (not an error) and the per-turn
last-search id set becomes empty; on success it returns the `{count,
products}` payload over the at most 10 capped results and records exactly
their ids as the new last-search id set. -/
theorem search_tool_records_ids (retrieved : List Product) :
    (retrieved = [] →
      search_products_tool retrieved
        = (.noResults "No products found matching your criteria."
            "Try browsing by category or broadening your search.", ∅))
    ∧ (retrieved ≠ [] →
        search_products_tool retrieved
          = (.ok ((retrieved.take 10).map summarize).length ((retrieved.take 10).map summarize),
             (((retrieved.take 10).map summarize).map ProductSummary.id).toFinset)
        ∧ ((retrieved.take 10).map summarize).map ProductSummary.id
            = (retrieved.take 10).map Product.id
        ∧ ((retrieved.take 10).map summarize).length ≤ 10) := by
  constructor
  · intro h
    subst h
    rfl
  · intro h
    have hne : ((retrieved.take 10).map summarize).isEmpty = false := by
      cases retrieved with
      | nil => exact absurd rfl h
      | cons a t => rfl
    refine ⟨?_, ?_, ?_⟩
    · rw [search_products_tool]
      simp only [hne, Bool.false_eq_true, if_false]
    · rw [List.map_map]
      rfl
    · simp only [List.length_map, List.length_take]
      exact min_le_left _ _

/-- C9 witness: an empty retrieval clears the id set; a singleton retrieval
records exactly that product's id. -/
theorem search_tool_records_ids_witness :
    search_products_tool []
      = (.noResults "No products found matching your criteria."
          "Try browsing by category or broadening your search.", ∅)
    ∧ ([pEx] ≠ ([] : List Product))
    ∧ search_products_tool [pEx]
        = (.ok (([pEx].take 10).map summarize).length (([pEx].take 10).map summarize),
           ((([pEx].take 10).map summarize).map ProductSummary.id).toFinset) :=
  ⟨(search_tool_records_ids []).1 rfl, by decide,
   ((search_tool_records_ids [pEx]).2 (by decide)).1⟩

/-- C10: the two cart counters measure different things — after adding one
unit of one product and two units of another (both resolvable, distinct ids)
to an empty cart, `add_to_cart` reports `total_items = 3` (the sum of
quantities across the owner's rows), while `get_cart` reports
`item_count = 2` (one per distinct resolvable line). -/
theorem cart_counters_differ (catalog : List Product) (uid : Option String)
    (cid : String) (p1 p2 : Product)
    (h1 : get_product_by_id catalog p1.id = some p1)
    (h2 : get_product_by_id catalog p2.id = some p2)
    (hne : p1.id ≠ p2.id) :
    ∃ db1 db2,
      add_to_cart_tool catalog [] uid cid p1.id 1
        = (.ok ("Added " ++ toString (1:Int) ++ " x " ++ p1.title ++ " to cart")
            p1.id p1.title 1 1, db1)
      ∧ add_to_cart_tool catalog db1 uid cid p2.id 2
        = (.ok ("Added " ++ toString (2:Int) ++ " x " ++ p2.title ++ " to cart")
            p2.id p2.title 2 3, db2)
      ∧ get_cart_total_items db2 (cart_kwargs uid cid).1 (cart_kwargs uid cid).2 = 3
      ∧ db_get_cart db2 (cart_kwargs uid cid).1 (cart_kwargs uid cid).2
          = [(p1.id, 1), (p2.id, 2)]
      ∧ ∃ items total, get_cart_view catalog [(p1.id, 1), (p2.id, 2)]
          = .view items total 2 := by
  have hm1 := fresh_row_matches (cart_kwargs uid cid).1 (cart_kwargs uid cid).2 p1.id 1
  have hown1 : cartOwnerFilterRow (cart_kwargs uid cid).1 (cart_kwargs uid cid).2
      ⟨if truthy (cart_kwargs uid cid).1 then none else (cart_kwargs uid cid).2,
       (cart_kwargs uid cid).1, p1.id, 1⟩ = true := by
    simpa [cartRowPred] using hm1
  have hm2 := fresh_row_matches (cart_kwargs uid cid).1 (cart_kwargs uid cid).2 p2.id 2
  have hown2 : cartOwnerFilterRow (cart_kwargs uid cid).1 (cart_kwargs uid cid).2
      ⟨if truthy (cart_kwargs uid cid).1 then none else (cart_kwargs uid cid).2,
       (cart_kwargs uid cid).1, p2.id, 2⟩ = true := by
    simpa [cartRowPred] using hm2
  have hpred2 : cartRowPred (cart_kwargs uid cid).1 (cart_kwargs uid cid).2 p2.id
      ⟨if truthy (cart_kwargs uid cid).1 then none else (cart_kwargs uid cid).2,
       (cart_kwargs uid cid).1, p1.id, 1⟩ = false := by
    simp [cartRowPred, hne]
  refine ⟨[⟨if truthy (cart_kwargs uid cid).1 then none else (cart_kwargs uid cid).2,
      (cart_kwargs uid cid).1, p1.id, 1⟩],
    [⟨if truthy (cart_kwargs uid cid).1 then none else (cart_kwargs uid cid).2,
      (cart_kwargs uid cid).1, p1.id, 1⟩,
     ⟨if truthy (cart_kwargs uid cid).1 then none else (cart_kwargs uid cid).2,
      (cart_kwargs uid cid).1, p2.id, 2⟩],
    ?_, ?_, ?_, ?_, ?_⟩
  · rw [add_to_cart_tool, if_neg (by omega), h1]
    dsimp only
    rw [add_cart_item_fresh (show List.filter
        (cartRowPred (cart_kwargs uid cid).1 (cart_kwargs uid cid).2 p1.id) [] = [] from rfl)]
    dsimp only
    simp [get_cart_total_items, hown1]
  · have hfresh2 : List.filter
        (cartRowPred (cart_kwargs uid cid).1 (cart_kwargs uid cid).2 p2.id)
        [⟨if truthy (cart_kwargs uid cid).1 then none else (cart_kwargs uid cid).2,
          (cart_kwargs uid cid).1, p1.id, 1⟩] = [] := by
      simp [List.filter_cons, hpred2]
    rw [add_to_cart_tool, if_neg (by omega), h2]
    dsimp only
    rw [add_cart_item_fresh hfresh2]
    dsimp only
    simp [get_cart_total_items, List.filter_cons, hown1, hown2]
  · simp [get_cart_total_items, List.filter_cons, hown1, hown2]
  · simp [db_get_cart, List.filter_cons, hown1, hown2]
  · refine ⟨(getCartLoop catalog [(p1.id, 1), (p2.id, 2)]).1,
      round2 (getCartLoop catalog [(p1.id, 1), (p2.id, 2)]).2, ?_⟩
    rw [get_cart_view]
    simp only [List.isEmpty_cons, Bool.false_eq_true, if_false]
    congr 1
    have hlen := congrArg List.length
      ((getCartLoop_spec catalog [(p1.id, 1), (p2.id, 2)]).2)
    simp only [List.length_map] at hlen
    rw [hlen]
    simp [List.filter_cons, h1, h2]

/-- C10 witness: the concrete scenario on the two-product catalog — quantity
1 of product 1 and 2 of product 9 — reports total_items 3 but item_count 2. -/
theorem cart_counters_differ_witness :
    get_product_by_id [pEx, pEx2] pEx.id = some pEx
    ∧ get_product_by_id [pEx, pEx2] pEx2.id = some pEx2
    ∧ pEx.id ≠ pEx2.id
    ∧ ∃ db1 db2,
        add_to_cart_tool [pEx, pEx2] [] none "c1" pEx.id 1
          = (.ok ("Added " ++ toString (1:Int) ++ " x " ++ pEx.title ++ " to cart")
              pEx.id pEx.title 1 1, db1)
        ∧ add_to_cart_tool [pEx, pEx2] db1 none "c1" pEx2.id 2
          = (.ok ("Added " ++ toString (2:Int) ++ " x " ++ pEx2.title ++ " to cart")
              pEx2.id pEx2.title 2 3, db2)
        ∧ get_cart_total_items db2 (cart_kwargs none "c1").1 (cart_kwargs none "c1").2 = 3
        ∧ db_get_cart db2 (cart_kwargs none "c1").1 (cart_kwargs none "c1").2
            = [(pEx.id, 1), (pEx2.id, 2)]
        ∧ ∃ items total, get_cart_view [pEx, pEx2] [(pEx.id, 1), (pEx2.id, 2)]
            = .view items total 2 :=
  ⟨by decide, by decide, by decide,
   cart_counters_differ [pEx, pEx2] none "c1" pEx pEx2 (by decide) (by decide) (by decide)⟩

end ShopAssist
